import Mathlib

/-!
A shallow embedding of `run_matrix.py`, the interface-test matrix runner of
charm-relation-interfaces, together with proofs about its behaviour.

Filesystem and subprocess effects are modelled explicitly: a `World` carries
the process working directory and the set of existing directories and files;
an `Oracle` fixes the exit status of every external subprocess (git clone,
virtualenv creation, pip installs, pytest); every effectful function returns
its result (`Except Err` mirroring raised exceptions), the updated `World`,
and a trace of `Event`s recording which external actions were performed.
-/

namespace RunMatrix

/-- Join two path segments, modelling Python `pathlib`'s `/` operator for
relative right-hand segments. -/
def pathJoin (a b : String) : String := a ++ "/" ++ b

/-- The parent directory of a path, modelling `Path.parent`. -/
def parentPath (p : String) : String :=
  String.intercalate "/" ((p.splitOn "/").dropLast)

/-- `FIXTURE_PATH` from the source. -/
def FIXTURE_PATH : String := "tests/interface/conftest.py"

/-- `FIXTURE_IDENTIFIER` from the source. -/
def FIXTURE_IDENTIFIER : String := "interface_tester"

/-- The default workspace root, the default value of the `root` parameter of
`_prepare_repo` and `_clean` (`/tmp/charm-relation-interfaces-tests/`,
normalised without the trailing slash as `pathlib.Path` does). -/
def ROOT : String := "/tmp/charm-relation-interfaces-tests"

/-- The `test_setup` mapping of a charm config: its `location` and
`identifier` entries, each possibly `None` (modelled as `none`) or any
string (the empty string being falsy, like `None`, under Python truthiness). -/
structure TestSetup where
  location : Option String
  identifier : Option String
  deriving DecidableEq, Repr

/-- `_CharmTestConfig` from the collector: the identity of a charm under
test. `test_setup := none` models a falsy (absent or empty) mapping. -/
structure CharmTestConfig where
  name : String
  url : String
  branch : Option String
  test_setup : Option TestSetup
  deriving DecidableEq, Repr

/-- The `FixtureSpec` namedtuple `("path", "id")`. -/
structure FixtureSpec where
  path : String
  id : String
  deriving DecidableEq, Repr

/-- Exceptions the embedded code can raise. -/
inductive Err where
  | setupError (msg : String)
  | interfaceTestError
  | valueError (msg : String)
  | keyError (key : String)
  deriving DecidableEq, Repr

/-- Observable external actions, recorded in order of occurrence. -/
inductive Event where
  | cleanCall (root : String)
  | rmtree (root : String)
  | clone (name : String)
  | venvBuild (path : String)
  | genTest (path : String)
  | pytest (root : String) (test : String)
  deriving DecidableEq, Repr

/-- Exit statuses of the external subprocesses, fixed for a run.
`cloneRet` is the integer returned by `subprocess.call` on the git clone
(negative values denote termination by signal, as in Python); the remaining
fields record whether each `subprocess.check_call` succeeds (exit status 0). -/
structure Oracle where
  cloneRet : String → Int
  mkvenvOK : String → Bool
  pipHarnessOK : String → Bool
  pipReqsOK : String → Bool
  pytestOK : String → String → Bool

/-- The mutable ambient state: working directory and the filesystem, the
latter as the lists of existing directory and file paths. -/
structure World where
  cwd : String
  dirs : List String
  files : List String
  deriving DecidableEq, Repr

/-- `Path.exists()`: true for directories and files alike. -/
def World.pathExists (w : World) (p : String) : Bool :=
  w.dirs.contains p || w.files.contains p

/-- `Path.is_dir()`. -/
def World.isDir (w : World) (p : String) : Bool := w.dirs.contains p

/-- `Path.is_file()`. -/
def World.isFile (w : World) (p : String) : Bool := w.files.contains p

/-- Embeds `_clone_charm_repo`: shells out to `git clone`; the source raises
`SetupError` naming the charm exactly when the returned status is `> 0`.
On success the target directory comes to exist. -/
def _clone_charm_repo (o : Oracle) (charm_config : CharmTestConfig)
    (charm_path : String) (w : World) : Except Err Unit × World × List Event :=
  let retcode := o.cloneRet charm_config.name
  if retcode > 0 then
    (Except.error (Err.setupError
        ("Failed to clone repo for " ++ charm_config.name
          ++ "; check the charms.yaml config.")),
      w, [Event.clone charm_config.name])
  else
    (Except.ok (), { w with dirs := charm_path :: w.dirs },
      [Event.clone charm_config.name])

/-- Embeds `_setup_venv`: records the current working directory, changes
into `charm_path`, runs the three install commands inside a
`try`/`except` that converts any `CalledProcessError` into `SetupError`,
and only then — after the `try` block, hence only on the success path —
changes back to the recorded directory. -/
def _setup_venv (o : Oracle) (charm_path : String) (w : World) :
    Except Err Unit × World × List Event :=
  let original_wd := w.cwd
  let w1 := { w with cwd := charm_path }
  if o.mkvenvOK charm_path && o.pipHarnessOK charm_path && o.pipReqsOK charm_path then
    (Except.ok (), { w1 with cwd := original_wd }, [Event.venvBuild charm_path])
  else
    (Except.error (Err.setupError "venv setup failed"), w1,
      [Event.venvBuild charm_path])

/-- Embeds `_run_test_with_pytest`: records the current working directory,
changes into `root`, invokes pytest, converting a nonzero exit into
`InterfaceTestError`; the `os.chdir(original_wd)` sits after the
`try`/`except`, hence runs only on the success path. -/
def _run_test_with_pytest (o : Oracle) (root : String) (test_path : String)
    (w : World) : Except Err Unit × World × List Event :=
  let original_wd := w.cwd
  let w1 := { w with cwd := root }
  if o.pytestOK root test_path then
    (Except.ok (), { w1 with cwd := original_wd }, [Event.pytest root test_path])
  else
    (Except.error Err.interfaceTestError, w1, [Event.pytest root test_path])

/-- Embeds `_get_fixture`: defaults, independently overridden by the truthy
entries of a truthy `test_setup` mapping (Python truthiness: `None` and the
empty string are falsy). -/
def _get_fixture (charm_config : CharmTestConfig) (charm_path : String) :
    FixtureSpec :=
  let fixture_path := pathJoin charm_path FIXTURE_PATH
  let fixture_id := FIXTURE_IDENTIFIER
  match charm_config.test_setup with
  | none => { path := fixture_path, id := fixture_id }
  | some ts =>
      let fixture_path :=
        match ts.location with
        | some loc => if loc == "" then fixture_path else pathJoin charm_path loc
        | none => fixture_path
      let fixture_id :=
        match ts.identifier with
        | some i => if i == "" then fixture_id else i
        | none => fixture_id
      { path := fixture_path, id := fixture_id }

/-- Embeds `_generate_test`: writes the rendered pytest file
`interface-test-<interface>.py` into `test_path` (overwriting any previous
one) and returns its path. The file's textual content is not modelled. -/
def _generate_test (interface : String) (test_path : String)
    (fixture_id : String) (version : Int) (w : World) :
    String × World × List Event :=
  let test_filename := "interface-test-" ++ interface ++ ".py"
  let out := pathJoin test_path test_filename
  (out,
    { w with files := if w.files.contains out then w.files else out :: w.files },
    [Event.genTest out])

/-- The second half of `_prepare_repo` (after the clone/venv step): resolve
the fixture, raise `SetupError` if the fixture file is missing, otherwise
generate the test file and return the charm path and test path. The
`except FileNotFoundError` branch of the source is unreachable here because
the embedded `_get_fixture` touches no filesystem state. -/
def _prepare_fixture (charm_config : CharmTestConfig) (interface : String)
    (version : Int) (charm_path : String) (w : World) :
    Except Err (String × String) × World × List Event :=
  let fixture_spec := _get_fixture charm_config charm_path
  if w.isFile fixture_spec.path then
    match _generate_test interface (parentPath fixture_spec.path)
        fixture_spec.id version w with
    | (test_path, w2, ev2) => (Except.ok (charm_path, test_path), w2, ev2)
  else
    (Except.error (Err.setupError
        ("fixture missing for charm " ++ charm_config.name)), w, [])

/-- Embeds `_prepare_repo`: clone the repository and create the venv if the
charm path does not exist yet, then resolve the fixture and generate the
test file. -/
def _prepare_repo (o : Oracle) (charm_config : CharmTestConfig)
    (interface : String) (version : Int) (root : String) (w : World) :
    Except Err (String × String) × World × List Event :=
  let charm_path := pathJoin root charm_config.name
  if w.pathExists charm_path then
    _prepare_fixture charm_config interface version charm_path w
  else
    match _clone_charm_repo o charm_config charm_path w with
    | (Except.error e, w1, ev1) => (Except.error e, w1, ev1)
    | (Except.ok _, w1, ev1) =>
        match _setup_venv o charm_path w1 with
        | (Except.error e, w2, ev2) => (Except.error e, w2, ev1 ++ ev2)
        | (Except.ok _, w2, ev2) =>
            match _prepare_fixture charm_config interface version charm_path w2 with
            | (r, w3, ev3) => (r, w3, ev1 ++ ev2 ++ ev3)

/-- Embeds `_clean`: delete the workspace root recursively when it is a
directory, otherwise do nothing. The `cleanCall` event records the
invocation itself, the `rmtree` event an actual deletion. -/
def isUnder (root p : String) : Bool :=
  p == root || (root ++ "/").data.isPrefixOf p.data

def _clean (root : String) (w : World) : World × List Event :=
  if w.isDir root then
    ({ w with
        dirs := w.dirs.filter (fun p => !(isUnder root p)),
        files := w.files.filter (fun p => !(isUnder root p)) },
      [Event.cleanCall root, Event.rmtree root])
  else
    (w, [Event.cleanCall root])

/-- Embeds `_test_charm`: run `_prepare_repo` catching exactly `SetupError`
into a `false` outcome, then `_run_test_with_pytest` catching exactly
`InterfaceTestError` into a `false` outcome; any other exception escapes. -/
def _test_charm (o : Oracle) (charm_config : CharmTestConfig)
    (interface : String) (version : Int) (role : String) (w : World) :
    Except Err Bool × World × List Event :=
  match _prepare_repo o charm_config interface version ROOT w with
  | (Except.error (Err.setupError _), w1, ev1) => (Except.ok false, w1, ev1)
  | (Except.error e, w1, ev1) => (Except.error e, w1, ev1)
  | (Except.ok (charm_path, test_path), w1, ev1) =>
      match _run_test_with_pytest o charm_path test_path w1 with
      | (Except.error Err.interfaceTestError, w2, ev2) =>
          (Except.ok false, w2, ev1 ++ ev2)
      | (Except.error e, w2, ev2) => (Except.error e, w2, ev1 ++ ev2)
      | (Except.ok _, w2, ev2) => (Except.ok true, w2, ev1 ++ ev2)

/-- Embeds `_test_charms`: fold `_test_charm` over the charm list,
recording each outcome under the charm's name (Python dicts preserve
insertion order; they are modelled as association lists). -/
def _test_charms (o : Oracle) (charm_configs : List CharmTestConfig)
    (interface : String) (version : Int) (role : String) (w : World) :
    Except Err (List (String × Bool)) × World × List Event :=
  match charm_configs with
  | [] => (Except.ok [], w, [])
  | charm_config :: rest =>
      match _test_charm o charm_config interface version role w with
      | (Except.error e, w1, ev1) => (Except.error e, w1, ev1)
      | (Except.ok success, w1, ev1) =>
          match _test_charms o rest interface version role w1 with
          | (Except.error e, w2, ev2) => (Except.error e, w2, ev1 ++ ev2)
          | (Except.ok out, w2, ev2) =>
              (Except.ok ((charm_config.name, success) :: out), w2, ev1 ++ ev2)

/-- The per-role registry entry: the `tests` and `charms` lists. -/
structure RoleTestSpec where
  tests : List String
  charms : List CharmTestConfig
  deriving DecidableEq, Repr

/-- Python dict indexing (`m[key]`), raising `KeyError` on a missing key;
dicts are modelled as insertion-ordered association lists. -/
def dictGet {α : Type} (m : List (String × α)) (key : String) : Except Err α :=
  match m.find? (fun kv => kv.1 == key) with
  | some kv => Except.ok kv.2
  | none => Except.error (Err.keyError key)

/-- The loop body of `_test_roles`, iterating over the hard-coded role list
`["provider", "requirer"]`: skip (recording `{}`) when a role has no tests
or no charms, otherwise run `_test_charms`. -/
def _test_roles_go (o : Oracle) (roles : List String)
    (tests_per_role : List (String × RoleTestSpec)) (interface : String)
    (version : Int) (w : World) :
    Except Err (List (String × List (String × Bool))) × World × List Event :=
  match roles with
  | [] => (Except.ok [], w, [])
  | role :: rest =>
      match dictGet tests_per_role role with
      | Except.error e => (Except.error e, w, [])
      | Except.ok spec =>
          let step :=
            if spec.tests.isEmpty then
              (Except.ok ([] : List (String × Bool)), w, ([] : List Event))
            else if spec.charms.isEmpty then
              (Except.ok ([] : List (String × Bool)), w, ([] : List Event))
            else _test_charms o spec.charms interface version role w
          match step with
          | (Except.error e, w1, ev1) => (Except.error e, w1, ev1)
          | (Except.ok res, w1, ev1) =>
              match _test_roles_go o rest tests_per_role interface version w1 with
              | (Except.error e, w2, ev2) => (Except.error e, w2, ev1 ++ ev2)
              | (Except.ok out, w2, ev2) =>
                  (Except.ok ((role, res) :: out), w2, ev1 ++ ev2)

/-- Embeds `_test_roles`: iterate `["provider", "requirer"]` in that fixed
order, independent of the registry mapping's own key order. -/
def _test_roles (o : Oracle) (tests_per_role : List (String × RoleTestSpec))
    (interface : String) (version : Int) (w : World) :
    Except Err (List (String × List (String × Bool))) × World × List Event :=
  _test_roles_go o ["provider", "requirer"] tests_per_role interface version w

/-- The whitespace characters Python's `int()` strips around a numeric
literal, checked against CPython 3.11: `\t` `\n` `\v` `\f` `\r` space,
NEL (U+0085), NBSP (U+00A0), OGHAM SPACE MARK (U+1680), U+2000-U+200A,
LINE/PARAGRAPH SEPARATOR (U+2028, U+2029), NARROW NBSP (U+202F),
MEDIUM MATHEMATICAL SPACE (U+205F) and IDEOGRAPHIC SPACE (U+3000). -/
def pyIsSpace (c : Char) : Bool :=
  ([9, 10, 11, 12, 13, 32, 133, 160, 5760, 8192, 8193, 8194, 8195, 8196,
    8197, 8198, 8199, 8200, 8201, 8202, 8232, 8233, 8239, 8287,
    12288] : List Nat).contains c.toNat

/-- The first code point of each run of ten Unicode decimal digits
(category Nd, digit value 0..9), as enumerated from the Unicode tables of
CPython 3.11; `int()` accepts any of these digits, scripts freely mixed. -/
def decDigitBases : List Nat :=
  [0x30, 0x660, 0x6f0, 0x7c0, 0x966, 0x9e6, 0xa66, 0xae6, 0xb66, 0xbe6,
   0xc66, 0xce6, 0xd66, 0xde6, 0xe50, 0xed0, 0xf20, 0x1040, 0x1090,
   0x17e0, 0x1810, 0x1946, 0x19d0, 0x1a80, 0x1a90, 0x1b50, 0x1bb0,
   0x1c40, 0x1c50, 0xa620, 0xa8d0, 0xa900, 0xa9d0, 0xa9f0, 0xaa50,
   0xabf0, 0xff10, 0x104a0, 0x10d30, 0x11066, 0x110f0, 0x11136, 0x111d0,
   0x112f0, 0x11450, 0x114d0, 0x11650, 0x116c0, 0x11730, 0x118e0,
   0x11950, 0x11c50, 0x11d50, 0x11da0, 0x16a60, 0x16ac0, 0x16b50,
   0x1d7ce, 0x1d7d8, 0x1d7e2, 0x1d7ec, 0x1d7f6, 0x1e140, 0x1e2f0,
   0x1e950, 0x1fbf0]

/-- The decimal value of a Unicode decimal digit, `none` for any other
character. -/
def pyDigitVal (c : Char) : Option Nat :=
  match decDigitBases.find? (fun b => b ≤ c.toNat && c.toNat < b + 10) with
  | some b => some (c.toNat - b)
  | none => none

/-- The digits after the first one: Unicode decimal digits with single
underscores allowed strictly between digits (PEP 515), folding up the
value; `none` on a trailing, doubled or misplaced underscore or any
non-digit. -/
def pyParseDigitsGo (acc : Nat) : List Char → Option Nat
  | [] => some acc
  | ['_'] => none
  | '_' :: c :: rest =>
      match pyDigitVal c with
      | some d => pyParseDigitsGo (acc * 10 + d) rest
      | none => none
  | c :: rest =>
      match pyDigitVal c with
      | some d => pyParseDigitsGo (acc * 10 + d) rest
      | none => none

/-- Python `int(s)` for base 10, checked against CPython 3.11: strips
`int()`'s whitespace set, then an optional sign followed by one or more
Unicode decimal digits with single underscores allowed between digits;
anything else raises `ValueError` whose message quotes the original string
(CPython quotes it with `repr`; its escaping of exotic characters is not
modelled). -/
def pyIntOfString (s : String) : Except Err Int :=
  let t := ((s.data.dropWhile pyIsSpace).reverse.dropWhile pyIsSpace).reverse
  let core := match t with
    | '-' :: rest => rest
    | '+' :: rest => rest
    | _ => t
  let err : Except Err Int := Except.error (Err.valueError
    ("invalid literal for int() with base 10: '" ++ s ++ "'"))
  match core with
  | [] => err
  | c :: rest =>
      match pyDigitVal c with
      | none => err
      | some d =>
          match pyParseDigitsGo d rest with
          | none => err
          | some n =>
              Except.ok (match t with
                | '-' :: _ => -(n : Int)
                | _ => (n : Int))

/-- Embeds `_test_interface_version`: for each version label, parse the
integer after the leading marker character with `int(version[1:])` — a
`ValueError` from the parse is not caught anywhere — and run `_test_roles`. -/
def _test_interface_version (o : Oracle)
    (tests_per_version : List (String × List (String × RoleTestSpec)))
    (interface : String) (w : World) :
    Except Err (List (String × List (String × List (String × Bool)))) ×
      World × List Event :=
  match tests_per_version with
  | [] => (Except.ok [], w, [])
  | (version, tests_per_role) :: rest =>
      match pyIntOfString (version.drop 1) with
      | Except.error e => (Except.error e, w, [])
      | Except.ok version_int =>
          match _test_roles o tests_per_role interface version_int w with
          | (Except.error e, w1, ev1) => (Except.error e, w1, ev1)
          | (Except.ok res, w1, ev1) =>
              match _test_interface_version o rest interface w1 with
              | (Except.error e, w2, ev2) => (Except.error e, w2, ev1 ++ ev2)
              | (Except.ok out, w2, ev2) =>
                  (Except.ok ((version, res) :: out), w2, ev1 ++ ev2)

/-- The interface loop of `run_interface_tests`, over the already-collected
registry (`collect_tests` is external to this module and is modelled by
passing its result directly). -/
def run_interface_tests_go (o : Oracle)
    (collected : List (String × List (String × List (String × RoleTestSpec))))
    (w : World) :
    Except Err
        (List (String × List (String × List (String × List (String × Bool))))) ×
      World × List Event :=
  match collected with
  | [] => (Except.ok [], w, [])
  | (interface, version_to_roles) :: rest =>
      match _test_interface_version o version_to_roles interface w with
      | (Except.error e, w1, ev1) => (Except.error e, w1, ev1)
      | (Except.ok res, w1, ev1) =>
          match run_interface_tests_go o rest w1 with
          | (Except.error e, w2, ev2) => (Except.error e, w2, ev1 ++ ev2)
          | (Except.ok out, w2, ev2) =>
              (Except.ok ((interface, res) :: out), w2, ev1 ++ ev2)

/-- Embeds `run_interface_tests`: `_clean()` first, then the traversal of
the collected registry. -/
def run_interface_tests (o : Oracle)
    (collected : List (String × List (String × List (String × RoleTestSpec))))
    (w : World) :
    Except Err
        (List (String × List (String × List (String × List (String × Bool))))) ×
      World × List Event :=
  match _clean ROOT w with
  | (w0, ev0) =>
      match run_interface_tests_go o collected w0 with
      | (r, w1, ev1) => (r, w1, ev0 ++ ev1)

/-! ## Derived characterisations -/

/-- The path of the test file `_prepare_repo` generates for a charm whose
resolved fixture lives under `charm_path`. -/
def testFileFor (charm_config : CharmTestConfig) (charm_path interface : String) :
    String :=
  pathJoin (parentPath (_get_fixture charm_config charm_path).path)
    ("interface-test-" ++ interface ++ ".py")

/-- Adding a file to the world (idempotently, as overwriting does). -/
def World.addFile (w : World) (p : String) : World :=
  { w with files := if w.files.contains p then w.files else p :: w.files }

/-- The venv construction for a charm path succeeds iff all three install
commands exit 0. -/
def venvOK (o : Oracle) (charm_path : String) : Bool :=
  o.mkvenvOK charm_path && o.pipHarnessOK charm_path && o.pipReqsOK charm_path

theorem prepare_fixture_miss (cfg : CharmTestConfig) (i : String) (v : Int)
    (cp : String) (w : World)
    (hfix : w.isFile (_get_fixture cfg cp).path = false) :
    _prepare_fixture cfg i v cp w =
      (Except.error (Err.setupError ("fixture missing for charm " ++ cfg.name)),
        w, []) := by
  unfold _prepare_fixture
  simp [hfix]

theorem prepare_fixture_hit (cfg : CharmTestConfig) (i : String) (v : Int)
    (cp : String) (w : World)
    (hfix : w.isFile (_get_fixture cfg cp).path = true) :
    _prepare_fixture cfg i v cp w =
      (Except.ok (cp, testFileFor cfg cp i), w.addFile (testFileFor cfg cp i),
        [Event.genTest (testFileFor cfg cp i)]) := by
  unfold _prepare_fixture _generate_test testFileFor World.addFile
  simp [hfix]

theorem prepare_repo_exists (o : Oracle) (cfg : CharmTestConfig)
    (i : String) (v : Int) (root : String) (w : World)
    (hex : w.pathExists (pathJoin root cfg.name) = true) :
    _prepare_repo o cfg i v root w =
      _prepare_fixture cfg i v (pathJoin root cfg.name) w := by
  unfold _prepare_repo
  simp [hex]

theorem prepare_repo_clone_fail (o : Oracle) (cfg : CharmTestConfig)
    (i : String) (v : Int) (root : String) (w : World)
    (hex : w.pathExists (pathJoin root cfg.name) = false)
    (hclone : 0 < o.cloneRet cfg.name) :
    _prepare_repo o cfg i v root w =
      (Except.error (Err.setupError ("Failed to clone repo for " ++ cfg.name
          ++ "; check the charms.yaml config.")),
        w, [Event.clone cfg.name]) := by
  unfold _prepare_repo _clone_charm_repo
  simp [hex, hclone]

theorem prepare_repo_venv_fail (o : Oracle) (cfg : CharmTestConfig)
    (i : String) (v : Int) (root : String) (w : World)
    (hex : w.pathExists (pathJoin root cfg.name) = false)
    (hclone : ¬ 0 < o.cloneRet cfg.name)
    (hvenv : venvOK o (pathJoin root cfg.name) = false) :
    _prepare_repo o cfg i v root w =
      (Except.error (Err.setupError "venv setup failed"),
        { cwd := pathJoin root cfg.name,
          dirs := pathJoin root cfg.name :: w.dirs, files := w.files },
        [Event.clone cfg.name, Event.venvBuild (pathJoin root cfg.name)]) := by
  unfold _prepare_repo _clone_charm_repo _setup_venv
  unfold venvOK at hvenv
  simp [hex, hclone, hvenv]

theorem prepare_repo_fresh_miss (o : Oracle) (cfg : CharmTestConfig)
    (i : String) (v : Int) (root : String) (w : World)
    (hex : w.pathExists (pathJoin root cfg.name) = false)
    (hclone : ¬ 0 < o.cloneRet cfg.name)
    (hvenv : venvOK o (pathJoin root cfg.name) = true)
    (hfix : w.isFile (_get_fixture cfg (pathJoin root cfg.name)).path = false) :
    _prepare_repo o cfg i v root w =
      (Except.error (Err.setupError ("fixture missing for charm " ++ cfg.name)),
        { w with dirs := pathJoin root cfg.name :: w.dirs },
        [Event.clone cfg.name, Event.venvBuild (pathJoin root cfg.name)]) := by
  unfold _prepare_repo _clone_charm_repo _setup_venv
  unfold venvOK at hvenv
  simp [hex, hclone, hvenv,
    prepare_fixture_miss cfg i v (pathJoin root cfg.name)
      { w with dirs := pathJoin root cfg.name :: w.dirs } (by simpa [World.isFile] using hfix)]

theorem prepare_repo_fresh_hit (o : Oracle) (cfg : CharmTestConfig)
    (i : String) (v : Int) (root : String) (w : World)
    (hex : w.pathExists (pathJoin root cfg.name) = false)
    (hclone : ¬ 0 < o.cloneRet cfg.name)
    (hvenv : venvOK o (pathJoin root cfg.name) = true)
    (hfix : w.isFile (_get_fixture cfg (pathJoin root cfg.name)).path = true) :
    _prepare_repo o cfg i v root w =
      (Except.ok (pathJoin root cfg.name,
          testFileFor cfg (pathJoin root cfg.name) i),
        World.addFile { w with dirs := pathJoin root cfg.name :: w.dirs }
          (testFileFor cfg (pathJoin root cfg.name) i),
        [Event.clone cfg.name, Event.venvBuild (pathJoin root cfg.name),
          Event.genTest (testFileFor cfg (pathJoin root cfg.name) i)]) := by
  unfold _prepare_repo _clone_charm_repo _setup_venv
  unfold venvOK at hvenv
  simp [hex, hclone, hvenv,
    prepare_fixture_hit cfg i v (pathJoin root cfg.name)
      { w with dirs := pathJoin root cfg.name :: w.dirs } (by simpa [World.isFile] using hfix),
    World.addFile]

/-- The outcome `_test_charm` records, as a pure function of the oracle and
the only two facts of the initial world it reads: whether the charm path
already exists, and whether the resolved fixture file is on disk. -/
def charmOutcome (o : Oracle) (charm_config : CharmTestConfig)
    (interface : String) (existsBefore fixtureOnDisk : Bool) : Bool :=
  let charm_path := pathJoin ROOT charm_config.name
  let test_path := testFileFor charm_config charm_path interface
  if existsBefore then
    fixtureOnDisk && o.pytestOK charm_path test_path
  else if 0 < o.cloneRet charm_config.name then false
  else
    venvOK o charm_path && (fixtureOnDisk && o.pytestOK charm_path test_path)

theorem test_charm_eq_outcome (o : Oracle) (cfg : CharmTestConfig)
    (i : String) (v : Int) (r : String) (w : World) :
    (_test_charm o cfg i v r w).1 =
      Except.ok (charmOutcome o cfg i (w.pathExists (pathJoin ROOT cfg.name))
        (w.isFile (_get_fixture cfg (pathJoin ROOT cfg.name)).path)) := by
  cases hex : w.pathExists (pathJoin ROOT cfg.name) with
  | true =>
      cases hfix : w.isFile (_get_fixture cfg (pathJoin ROOT cfg.name)).path with
      | true =>
          unfold _test_charm
          rw [prepare_repo_exists o cfg i v ROOT w hex,
            prepare_fixture_hit cfg i v (pathJoin ROOT cfg.name) w hfix]
          unfold _run_test_with_pytest
          cases hpy : o.pytestOK (pathJoin ROOT cfg.name)
              (testFileFor cfg (pathJoin ROOT cfg.name) i) <;>
            simp [charmOutcome, hpy]
      | false =>
          unfold _test_charm
          rw [prepare_repo_exists o cfg i v ROOT w hex,
            prepare_fixture_miss cfg i v (pathJoin ROOT cfg.name) w hfix]
          simp [charmOutcome]
  | false =>
      by_cases hclone : 0 < o.cloneRet cfg.name
      · unfold _test_charm
        rw [prepare_repo_clone_fail o cfg i v ROOT w hex hclone]
        simp [charmOutcome, hclone]
      · cases hvenv : venvOK o (pathJoin ROOT cfg.name) with
        | false =>
            unfold _test_charm
            rw [prepare_repo_venv_fail o cfg i v ROOT w hex hclone hvenv]
            simp [charmOutcome, hclone, hvenv]
        | true =>
            cases hfix : w.isFile (_get_fixture cfg (pathJoin ROOT cfg.name)).path with
            | true =>
                unfold _test_charm
                rw [prepare_repo_fresh_hit o cfg i v ROOT w hex hclone hvenv hfix]
                unfold _run_test_with_pytest
                cases hpy : o.pytestOK (pathJoin ROOT cfg.name)
                    (testFileFor cfg (pathJoin ROOT cfg.name) i) <;>
                  simp [charmOutcome, hclone, hvenv, hpy]
            | false =>
                unfold _test_charm
                rw [prepare_repo_fresh_miss o cfg i v ROOT w hex hclone hvenv hfix]
                simp [charmOutcome, hclone, hvenv]

theorem contains_cons_of_ne {l : List String} {a b : String} (h : b ≠ a) :
    (a :: l).contains b = l.contains b := by
  simp [List.contains_cons, h]

theorem pathJoin_right_inj {r a b : String} (h : pathJoin r a = pathJoin r b) :
    a = b := by
  unfold pathJoin at h
  have hd := congrArg String.data h
  simp only [String.data_append] at hd
  exact String.ext (List.append_cancel_left hd)

/-- Whenever `_prepare_repo` raises, the exception is a `SetupError`, the
file set is untouched, and the directory set is at most extended by the
charm path itself. -/
theorem prepare_repo_error_shape (o : Oracle) (cfg : CharmTestConfig)
    (i : String) (v : Int) (root : String) (w : World) (e : Err)
    (h : (_prepare_repo o cfg i v root w).1 = Except.error e) :
    (∃ m, e = Err.setupError m)
    ∧ (_prepare_repo o cfg i v root w).2.1.files = w.files
    ∧ ((_prepare_repo o cfg i v root w).2.1.dirs = w.dirs
        ∨ (_prepare_repo o cfg i v root w).2.1.dirs
            = pathJoin root cfg.name :: w.dirs) := by
  cases hex : w.pathExists (pathJoin root cfg.name) with
  | true =>
      cases hfix : w.isFile (_get_fixture cfg (pathJoin root cfg.name)).path with
      | true =>
          rw [prepare_repo_exists o cfg i v root w hex,
            prepare_fixture_hit cfg i v _ w hfix] at h
          simp at h
      | false =>
          rw [prepare_repo_exists o cfg i v root w hex,
            prepare_fixture_miss cfg i v _ w hfix] at h ⊢
          simp_all
          exact ⟨_, h.symm⟩
  | false =>
      by_cases hclone : 0 < o.cloneRet cfg.name
      · rw [prepare_repo_clone_fail o cfg i v root w hex hclone] at h ⊢
        simp_all
        exact ⟨_, h.symm⟩
      · cases hvenv : venvOK o (pathJoin root cfg.name) with
        | false =>
            rw [prepare_repo_venv_fail o cfg i v root w hex hclone hvenv] at h ⊢
            simp_all
            exact ⟨_, h.symm⟩
        | true =>
            cases hfix : w.isFile (_get_fixture cfg (pathJoin root cfg.name)).path with
            | true =>
                rw [prepare_repo_fresh_hit o cfg i v root w hex hclone hvenv hfix] at h
                simp at h
            | false =>
                rw [prepare_repo_fresh_miss o cfg i v root w hex hclone hvenv hfix] at h ⊢
                simp_all
                exact ⟨_, h.symm⟩

/-- When `_prepare_repo` raises `SetupError`, `_test_charm` catches it and
returns `false`, propagating the provisioner's world and trace. -/
theorem test_charm_setup_fail (o : Oracle) (cfg : CharmTestConfig)
    (i : String) (v : Int) (r : String) (w : World) (m : String)
    (h : (_prepare_repo o cfg i v ROOT w).1 = Except.error (Err.setupError m)) :
    _test_charm o cfg i v r w =
      (Except.ok false, (_prepare_repo o cfg i v ROOT w).2.1,
        (_prepare_repo o cfg i v ROOT w).2.2) := by
  unfold _test_charm
  rcases hp : _prepare_repo o cfg i v ROOT w with ⟨r1, w1, ev1⟩
  rw [hp] at h
  simp at h
  subst h
  simp

/-- When `_prepare_repo` succeeds but the pytest run fails,
`_test_charm` catches the `InterfaceTestError` and returns `false`; the
working directory is left at the charm path (the chdir-back sits after the
`try`/`except`). -/
theorem test_charm_pytest_fail (o : Oracle) (cfg : CharmTestConfig)
    (i : String) (v : Int) (r : String) (w : World) (cp tp : String)
    (w1 : World) (ev1 : List Event)
    (hprep : _prepare_repo o cfg i v ROOT w = (Except.ok (cp, tp), w1, ev1))
    (hpy : o.pytestOK cp tp = false) :
    _test_charm o cfg i v r w
      = (Except.ok false, { w1 with cwd := cp },
          ev1 ++ [Event.pytest cp tp]) := by
  unfold _test_charm
  rw [hprep]
  unfold _run_test_with_pytest
  simp [hpy]

/-- Whenever `_prepare_repo` succeeds, the returned charm path is the
canonical one, the file set gained at most the generated test file, and
the directory set at most the charm path itself. -/
theorem prepare_repo_ok_shape (o : Oracle) (cfg : CharmTestConfig)
    (i : String) (v : Int) (root : String) (w : World) (cp tp : String)
    (w1 : World) (ev1 : List Event)
    (h : _prepare_repo o cfg i v root w = (Except.ok (cp, tp), w1, ev1)) :
    cp = pathJoin root cfg.name
    ∧ (w1.files = w.files ∨ w1.files = tp :: w.files)
    ∧ (w1.dirs = w.dirs ∨ w1.dirs = pathJoin root cfg.name :: w.dirs) := by
  cases hex : w.pathExists (pathJoin root cfg.name) with
  | true =>
      cases hfix : w.isFile (_get_fixture cfg (pathJoin root cfg.name)).path with
      | false =>
          rw [prepare_repo_exists o cfg i v root w hex,
            prepare_fixture_miss cfg i v _ w hfix] at h
          simp at h
      | true =>
          rw [prepare_repo_exists o cfg i v root w hex,
            prepare_fixture_hit cfg i v _ w hfix] at h
          simp only [Prod.mk.injEq, Except.ok.injEq] at h
          obtain ⟨⟨hcp, htp⟩, hw1, -⟩ := h
          subst htp
          subst hcp
          subst hw1
          refine ⟨rfl, ?_, Or.inl ?_⟩
          · unfold World.addFile
            by_cases hc : w.files.contains
              (testFileFor cfg (pathJoin root cfg.name) i)
            · left
              simp_all
            · right
              simp_all
          · simp [World.addFile]
  | false =>
      by_cases hclone : 0 < o.cloneRet cfg.name
      · rw [prepare_repo_clone_fail o cfg i v root w hex hclone] at h
        simp at h
      · cases hvenv : venvOK o (pathJoin root cfg.name) with
        | false =>
            rw [prepare_repo_venv_fail o cfg i v root w hex hclone hvenv] at h
            simp at h
        | true =>
            cases hfix : w.isFile (_get_fixture cfg (pathJoin root cfg.name)).path with
            | false =>
                rw [prepare_repo_fresh_miss o cfg i v root w hex hclone hvenv
                  hfix] at h
                simp at h
            | true =>
                rw [prepare_repo_fresh_hit o cfg i v root w hex hclone hvenv
                  hfix] at h
                simp only [Prod.mk.injEq, Except.ok.injEq] at h
                obtain ⟨⟨hcp, htp⟩, hw1, -⟩ := h
                subst htp
                subst hcp
                subst hw1
                refine ⟨rfl, ?_, Or.inr ?_⟩
                · unfold World.addFile
                  by_cases hc : w.files.contains
                    (testFileFor cfg (pathJoin root cfg.name) i)
                  · left
                    simp_all
                  · right
                    simp_all
                · simp [World.addFile]

/-- The two filesystem facts `_test_charm` reads about a charm are
unchanged by another charm's failed provisioning, as long as the two charm
names differ. -/
theorem reads_preserved_after_fail (o : Oracle) (A : CharmTestConfig)
    (i : String) (v : Int) (w : World) (e : Err) (p : String)
    (hA : (_prepare_repo o A i v ROOT w).1 = Except.error e)
    (hp : p ≠ pathJoin ROOT A.name) :
    (_prepare_repo o A i v ROOT w).2.1.pathExists p = w.pathExists p
    ∧ (_prepare_repo o A i v ROOT w).2.1.files = w.files := by
  obtain ⟨-, hfiles, hdirs⟩ := prepare_repo_error_shape o A i v ROOT w e hA
  refine ⟨?_, hfiles⟩
  unfold World.pathExists
  rw [hfiles]
  rcases hdirs with hd | hd <;> rw [hd]
  rw [contains_cons_of_ne hp]

theorem test_charms_cons_outcomes (o : Oracle) (c : CharmTestConfig)
    (rest : List CharmTestConfig) (i : String) (v : Int) (r : String)
    (w : World) (b : Bool) (out : List (String × Bool))
    (hc : (_test_charm o c i v r w).1 = Except.ok b)
    (hrest : (_test_charms o rest i v r (_test_charm o c i v r w).2.1).1
      = Except.ok out) :
    (_test_charms o (c :: rest) i v r w).1 = Except.ok ((c.name, b) :: out) := by
  unfold _test_charms
  rcases h1 : _test_charm o c i v r w with ⟨r1, w1, ev1⟩
  rw [h1] at hc hrest
  simp at hc
  subst hc
  simp only at hrest
  rcases h2 : _test_charms o rest i v r w1 with ⟨r2, w2, ev2⟩
  rw [h2] at hrest
  simp at hrest
  subst hrest
  simp [h2]

/-! ## Sample data for witnesses -/

/-- A charm whose clone will be made to fail in `sampleOracle`. -/
def sampleCharmA : CharmTestConfig :=
  { name := "charm-a", url := "https://example.com/a", branch := none,
    test_setup := none }

/-- A healthy charm. -/
def sampleCharmB : CharmTestConfig :=
  { name := "charm-b", url := "https://example.com/b", branch := none,
    test_setup := none }

/-- An oracle under which cloning `charm-a` exits 128 and everything else
succeeds. -/
def sampleOracle : Oracle :=
  { cloneRet := fun n => if n == "charm-a" then 128 else 0,
    mkvenvOK := fun _ => true, pipHarnessOK := fun _ => true,
    pipReqsOK := fun _ => true, pytestOK := fun _ _ => true }

/-- An oracle under which every subprocess fails. -/
def failingOracle : Oracle :=
  { cloneRet := fun _ => 1,
    mkvenvOK := fun _ => false, pipHarnessOK := fun _ => false,
    pipReqsOK := fun _ => false, pytestOK := fun _ _ => false }

/-- A world whose filesystem holds only `charm-b`'s fixture file. -/
def sampleWorld : World :=
  { cwd := "/home/runner", dirs := [],
    files := [pathJoin (pathJoin ROOT "charm-b") FIXTURE_PATH] }

/-- The empty world. -/
def emptyWorld : World := { cwd := "/home/runner", dirs := [], files := [] }

/-! ## Claims -/

/-- C1: the spec requires `_setup_venv` and `_run_test_with_pytest` to
restore the prior working directory on every exit path, including when
SetupError or InterfaceTestError is raised. The code places
`os.chdir(original_wd)` after the `try`/`except` block instead of in a
`finally`, so on the exception path the working directory is NOT restored:
evaluating the embedding at a failing install and a failing pytest run
leaves `cwd` at the charm path, not at the prior `/home/runner` (while the
success paths, last two conjuncts, do restore it). -/
theorem C1_cwd_left_changed_on_error_path :
    (_setup_venv failingOracle (pathJoin ROOT "charm-a") emptyWorld
      = (Except.error (Err.setupError "venv setup failed"),
          { cwd := pathJoin ROOT "charm-a", dirs := [], files := [] },
          [Event.venvBuild (pathJoin ROOT "charm-a")]))
    ∧ (_run_test_with_pytest failingOracle (pathJoin ROOT "charm-a") "t.py"
        emptyWorld
      = (Except.error Err.interfaceTestError,
          { cwd := pathJoin ROOT "charm-a", dirs := [], files := [] },
          [Event.pytest (pathJoin ROOT "charm-a") "t.py"]))
    ∧ pathJoin ROOT "charm-a" ≠ emptyWorld.cwd
    ∧ (_setup_venv sampleOracle (pathJoin ROOT "charm-a") emptyWorld).2.1.cwd
        = emptyWorld.cwd
    ∧ (_run_test_with_pytest sampleOracle (pathJoin ROOT "charm-a") "t.py"
        emptyWorld).2.1.cwd = emptyWorld.cwd := by
  exact ⟨rfl, rfl, by decide, rfl, rfl⟩

/-- C2 (amended): a SetupError or InterfaceTestError raised inside a unit
of work is caught at the per-charm boundary `_test_charm` and converted to
`false` (conjuncts 1 and 5), and the traversal of sibling units proceeds;
a sibling unit for a charm with a DIFFERENT name records the same outcome
it would have recorded had the failing unit not existed — another charm in
the same role (conjuncts 2 and 3 agree on B's leaf) and, after a
provisioning SetupError, B's unit under any other interface, version and
role as well (conjunct 4); after an InterfaceTestError the same holds
provided B's charm path and resolved fixture path do not alias the failed
unit's generated test file (conjunct 5). A sibling unit of the SAME charm
has no such guarantee: provisioning that fails after its clone leaves the
charm directory behind and a later unit for that charm reuses it without
rebuilding — the counterexample below exhibits this. -/
theorem C2_unit_failure_isolated (o : Oracle) (A B : CharmTestConfig)
    (i : String) (v : Int) (r : String) (w : World) (m : String)
    (hA : (_prepare_repo o A i v ROOT w).1 = Except.error (Err.setupError m))
    (hname : A.name ≠ B.name) :
    (_test_charm o A i v r w).1 = Except.ok false
    ∧ (_test_charms o [A, B] i v r w).1
        = Except.ok [(A.name, false),
            (B.name, charmOutcome o B i (w.pathExists (pathJoin ROOT B.name))
              (w.isFile (_get_fixture B (pathJoin ROOT B.name)).path))]
    ∧ (_test_charms o [B] i v r w).1
        = Except.ok [(B.name,
            charmOutcome o B i (w.pathExists (pathJoin ROOT B.name))
              (w.isFile (_get_fixture B (pathJoin ROOT B.name)).path))]
    ∧ (∀ (i2 : String) (v2 : Int) (r2 : String),
        (_test_charm o B i2 v2 r2 ((_test_charm o A i v r w).2.1)).1
          = (_test_charm o B i2 v2 r2 w).1)
    ∧ (∀ (w2 : World) (cp tp : String) (w3 : World) (ev3 : List Event),
        _prepare_repo o A i v ROOT w2 = (Except.ok (cp, tp), w3, ev3) →
        o.pytestOK cp tp = false →
        (_test_charm o A i v r w2).1 = Except.ok false
        ∧ (pathJoin ROOT B.name ≠ tp →
            (_get_fixture B (pathJoin ROOT B.name)).path ≠ tp →
            ∀ (i2 : String) (v2 : Int) (r2 : String),
              (_test_charm o B i2 v2 r2 ((_test_charm o A i v r w2).2.1)).1
                = (_test_charm o B i2 v2 r2 w2).1)) := by
  have hcharm := test_charm_setup_fail o A i v r w m hA
  have hpath : pathJoin ROOT B.name ≠ pathJoin ROOT A.name := by
    intro hcontr
    exact hname (pathJoin_right_inj hcontr).symm
  obtain ⟨hpe, hfl⟩ :=
    reads_preserved_after_fail o A i v w _ (pathJoin ROOT B.name) hA hpath
  have hisf : (_prepare_repo o A i v ROOT w).2.1.isFile
      (_get_fixture B (pathJoin ROOT B.name)).path
      = w.isFile (_get_fixture B (pathJoin ROOT B.name)).path := by
    unfold World.isFile
    rw [hfl]
  have hAout : (_test_charm o A i v r w).1 = Except.ok false := by
    rw [hcharm]
  have hworldA : (_test_charm o A i v r w).2.1
      = (_prepare_repo o A i v ROOT w).2.1 := by
    rw [hcharm]
  have hBout : (_test_charm o B i v r ((_test_charm o A i v r w).2.1)).1
      = Except.ok (charmOutcome o B i (w.pathExists (pathJoin ROOT B.name))
          (w.isFile (_get_fixture B (pathJoin ROOT B.name)).path)) := by
    rw [hworldA, test_charm_eq_outcome, hpe, hisf]
  refine ⟨hAout, ?_, ?_, ?_, ?_⟩
  · exact test_charms_cons_outcomes o A [B] i v r w false _ hAout
      (test_charms_cons_outcomes o B [] i v r _ _ [] hBout rfl)
  · exact test_charms_cons_outcomes o B [] i v r w _ []
      (test_charm_eq_outcome o B i v r w) rfl
  · intro i2 v2 r2
    rw [hworldA]
    simp only [test_charm_eq_outcome]
    rw [hpe, hisf]
  · intro w2 cp tp w3 ev3 hprep hpy
    have hfail := test_charm_pytest_fail o A i v r w2 cp tp w3 ev3 hprep hpy
    obtain ⟨hcp, hfiles, hdirs⟩ :=
      prepare_repo_ok_shape o A i v ROOT w2 cp tp w3 ev3 hprep
    refine ⟨by rw [hfail], ?_⟩
    intro hne1 hne2 i2 v2 r2
    have hpe2 : ({ w3 with cwd := cp } : World).pathExists
        (pathJoin ROOT B.name) = w2.pathExists (pathJoin ROOT B.name) := by
      unfold World.pathExists
      rcases hdirs with hd | hd <;> rcases hfiles with hf | hf <;>
        simp [hd, hf, hpath, hne1]
    have hisf2 : ({ w3 with cwd := cp } : World).isFile
        (_get_fixture B (pathJoin ROOT B.name)).path
        = w2.isFile (_get_fixture B (pathJoin ROOT B.name)).path := by
      unfold World.isFile
      rcases hfiles with hf | hf <;> simp [hf, hne2]
    simp [hfail, test_charm_eq_outcome, hpe2, hisf2]

/-- C2 witness: under `sampleOracle`, `charm-a`'s clone exits 128 (a caught
SetupError, recorded `false`) while `charm-b` still runs to a `true` leaf. -/
theorem C2_witness :
    (_test_charm sampleOracle sampleCharmA "ingress" 2 "provider" sampleWorld).1
      = Except.ok false
    ∧ (_test_charms sampleOracle [sampleCharmA, sampleCharmB] "ingress" 2
        "provider" sampleWorld).1
      = Except.ok [("charm-a", false), ("charm-b", true)] := by
  have h := C2_unit_failure_isolated sampleOracle sampleCharmA sampleCharmB
    "ingress" 2 "provider" sampleWorld
    "Failed to clone repo for charm-a; check the charms.yaml config."
    rfl (by decide)
  refine ⟨h.1, ?_⟩
  rw [h.2.1]
  rfl

/-- An oracle under which every clone succeeds, every venv build fails,
and pytest passes. -/
def venvFailOracle : Oracle :=
  { cloneRet := fun _ => 0, mkvenvOK := fun _ => false,
    pipHarnessOK := fun _ => true, pipReqsOK := fun _ => true,
    pytestOK := fun _ _ => true }

/-- A world holding only charm-a's fixture file. -/
def charmAFixtureWorld : World :=
  { cwd := "/home/runner", dirs := [],
    files := [pathJoin (pathJoin ROOT "charm-a") FIXTURE_PATH] }

/-- C2 counterexample: the claim as frozen extends the same-outcome
counterfactual guarantee to every sibling unit, including other roles of
the same charm; it fails there. Under `venvFailOracle`, charm-a's provider
unit clones successfully and then fails its venv build — a SetupError,
caught and recorded `false` — leaving the charm directory behind; the
requirer unit of the SAME charm in the same traversal then finds the
directory, skips clone and venv build, and records `true` (first
conjunct), whereas had the failing provider unit not existed it would have
provisioned from scratch, failed the venv build again, and recorded
`false` (second conjunct), a different outcome. -/
theorem C2_counterexample :
    (_test_roles venvFailOracle
        [("provider", ⟨["t1"], [sampleCharmA]⟩),
         ("requirer", ⟨["t1"], [sampleCharmA]⟩)]
        "ingress" 2 charmAFixtureWorld).1
      = Except.ok [("provider", [("charm-a", false)]),
          ("requirer", [("charm-a", true)])]
    ∧ (_test_charm venvFailOracle sampleCharmA "ingress" 2 "requirer"
        charmAFixtureWorld).1 = Except.ok false := by
  exact ⟨rfl, rfl⟩

/-! ## Event classification -/

def Event.isClone : Event → Bool
  | Event.clone _ => true
  | _ => false

def Event.isVenvBuild : Event → Bool
  | Event.venvBuild _ => true
  | _ => false

def Event.isCleanup : Event → Bool
  | Event.cleanCall _ => true
  | Event.rmtree _ => true
  | _ => false

/-- With the charm path already present, `_prepare_repo` performs neither a
clone nor an environment build. -/
theorem prepare_exists_no_clone_events (o : Oracle) (cfg : CharmTestConfig)
    (i : String) (v : Int) (root : String) (w : World)
    (hex : w.pathExists (pathJoin root cfg.name) = true) :
    (_prepare_repo o cfg i v root w).2.2.countP Event.isClone = 0
    ∧ (_prepare_repo o cfg i v root w).2.2.countP Event.isVenvBuild = 0 := by
  rw [prepare_repo_exists o cfg i v root w hex]
  cases hfix : w.isFile (_get_fixture cfg (pathJoin root cfg.name)).path with
  | false =>
      rw [prepare_fixture_miss cfg i v _ w hfix]
      simp
  | true =>
      rw [prepare_fixture_hit cfg i v _ w hfix]
      simp [Event.isClone, Event.isVenvBuild]

/-- A fresh provisioning whose clone succeeds performs exactly one clone
and one environment build, and leaves the charm path existing. -/
theorem prepare_fresh_one_clone (o : Oracle) (cfg : CharmTestConfig)
    (i : String) (v : Int) (root : String) (w : World)
    (hex : w.pathExists (pathJoin root cfg.name) = false)
    (hclone : ¬ 0 < o.cloneRet cfg.name) :
    (_prepare_repo o cfg i v root w).2.1.pathExists (pathJoin root cfg.name) = true
    ∧ (_prepare_repo o cfg i v root w).2.2.countP Event.isClone = 1
    ∧ (_prepare_repo o cfg i v root w).2.2.countP Event.isVenvBuild = 1 := by
  cases hvenv : venvOK o (pathJoin root cfg.name) with
  | false =>
      rw [prepare_repo_venv_fail o cfg i v root w hex hclone hvenv]
      simp [World.pathExists, Event.isClone, Event.isVenvBuild]
  | true =>
      cases hfix : w.isFile (_get_fixture cfg (pathJoin root cfg.name)).path with
      | false =>
          rw [prepare_repo_fresh_miss o cfg i v root w hex hclone hvenv hfix]
          simp [World.pathExists, Event.isClone, Event.isVenvBuild]
      | true =>
          rw [prepare_repo_fresh_hit o cfg i v root w hex hclone hvenv hfix]
          simp [World.pathExists, World.addFile, Event.isClone, Event.isVenvBuild]

/-- C3 (amended): when `<workspace>/<charm name>` already exists,
`_prepare_repo` performs no clone and no environment build and the path it
goes on to use is the existing one; and — amending the claim's second half,
which is false as stated — starting from a state where the charm path does
not exist and the clone succeeds, calling `_prepare_repo` twice without an
intervening workspace reset performs exactly one clone and exactly one
environment build in total. -/
theorem C3_provisioning_idempotent (o : Oracle) (cfg : CharmTestConfig)
    (i : String) (v : Int) (root : String) (w : World) :
    (w.pathExists (pathJoin root cfg.name) = true →
      (_prepare_repo o cfg i v root w).2.2.countP Event.isClone = 0
      ∧ (_prepare_repo o cfg i v root w).2.2.countP Event.isVenvBuild = 0
      ∧ ∀ p, (_prepare_repo o cfg i v root w).1 = Except.ok p →
          p.1 = pathJoin root cfg.name)
    ∧ (w.pathExists (pathJoin root cfg.name) = false →
      ¬ 0 < o.cloneRet cfg.name →
      ((_prepare_repo o cfg i v root w).2.2
          ++ (_prepare_repo o cfg i v root
                (_prepare_repo o cfg i v root w).2.1).2.2).countP Event.isClone = 1
      ∧ ((_prepare_repo o cfg i v root w).2.2
          ++ (_prepare_repo o cfg i v root
                (_prepare_repo o cfg i v root w).2.1).2.2).countP
            Event.isVenvBuild = 1) := by
  constructor
  · intro hex
    obtain ⟨hc, hv⟩ := prepare_exists_no_clone_events o cfg i v root w hex
    refine ⟨hc, hv, ?_⟩
    intro p hp
    rw [prepare_repo_exists o cfg i v root w hex] at hp
    cases hfix : w.isFile (_get_fixture cfg (pathJoin root cfg.name)).path with
    | false =>
        rw [prepare_fixture_miss cfg i v _ w hfix] at hp
        simp at hp
    | true =>
        rw [prepare_fixture_hit cfg i v _ w hfix] at hp
        simp at hp
        rw [← hp]
  · intro hex hclone
    obtain ⟨hpe2, hc1, hv1⟩ := prepare_fresh_one_clone o cfg i v root w hex hclone
    obtain ⟨hc2, hv2⟩ := prepare_exists_no_clone_events o cfg i v root _ hpe2
    simp [List.countP_append, hc1, hc2, hv1, hv2]

/-- A world in which `charm-b`'s directory already exists. -/
def sampleWorldExisting : World :=
  { cwd := "/home/runner", dirs := [pathJoin ROOT "charm-b"], files := [] }

/-- C3 counterexample: as frozen, the claim also asserts that calling the
provisioner twice with the same charm name, with no hypothesis beyond "no
intervening workspace reset", performs exactly one clone and one
environment build; but against a workspace where the charm directory
already exists both calls skip cloning, so the two calls together perform
zero clones and zero builds, not one. -/
theorem C3_counterexample :
    ((_prepare_repo sampleOracle sampleCharmB "ingress" 2 ROOT sampleWorldExisting).2.2
        ++ (_prepare_repo sampleOracle sampleCharmB "ingress" 2 ROOT
              (_prepare_repo sampleOracle sampleCharmB "ingress" 2 ROOT
                sampleWorldExisting).2.1).2.2).countP Event.isClone = 0
    ∧ ¬ ((_prepare_repo sampleOracle sampleCharmB "ingress" 2 ROOT sampleWorldExisting).2.2
        ++ (_prepare_repo sampleOracle sampleCharmB "ingress" 2 ROOT
              (_prepare_repo sampleOracle sampleCharmB "ingress" 2 ROOT
                sampleWorldExisting).2.1).2.2).countP Event.isClone = 1
    ∧ ((_prepare_repo sampleOracle sampleCharmB "ingress" 2 ROOT sampleWorldExisting).2.2
        ++ (_prepare_repo sampleOracle sampleCharmB "ingress" 2 ROOT
              (_prepare_repo sampleOracle sampleCharmB "ingress" 2 ROOT
                sampleWorldExisting).2.1).2.2).countP Event.isVenvBuild = 0 := by
  decide

/-- C3 witness: the amended statement at concrete inputs — with the path
present, no clone; starting fresh with a succeeding clone, exactly one
clone across two calls. -/
theorem C3_witness :
    (_prepare_repo sampleOracle sampleCharmB "ingress" 2 ROOT
      sampleWorldExisting).2.2.countP Event.isClone = 0
    ∧ ((_prepare_repo sampleOracle sampleCharmB "ingress" 2 ROOT emptyWorld).2.2
        ++ (_prepare_repo sampleOracle sampleCharmB "ingress" 2 ROOT
              (_prepare_repo sampleOracle sampleCharmB "ingress" 2 ROOT
                emptyWorld).2.1).2.2).countP Event.isClone = 1 := by
  refine ⟨((C3_provisioning_idempotent sampleOracle sampleCharmB "ingress" 2 ROOT
    sampleWorldExisting).1 (by decide)).1, ?_⟩
  exact ((C3_provisioning_idempotent sampleOracle sampleCharmB "ingress" 2 ROOT
    emptyWorld).2 (by decide) (by decide)).1

/-- C5: `_get_fixture` applies the location override and the identifier
override independently: location-only keeps the default identifier,
identifier-only keeps the default location, both overrides take effect
together, and with no overrides both defaults are used (whether the
`test_setup` mapping is absent or present with both entries falsy). -/
theorem C5_fixture_overrides_independent (cp n u : String) (b : Option String)
    (loc idf : String) (hloc : loc ≠ "") (hid : idf ≠ "") :
    _get_fixture ⟨n, u, b, some ⟨some loc, none⟩⟩ cp
        = ⟨pathJoin cp loc, FIXTURE_IDENTIFIER⟩
    ∧ _get_fixture ⟨n, u, b, some ⟨none, some idf⟩⟩ cp
        = ⟨pathJoin cp FIXTURE_PATH, idf⟩
    ∧ _get_fixture ⟨n, u, b, some ⟨some loc, some idf⟩⟩ cp
        = ⟨pathJoin cp loc, idf⟩
    ∧ _get_fixture ⟨n, u, b, none⟩ cp
        = ⟨pathJoin cp FIXTURE_PATH, FIXTURE_IDENTIFIER⟩
    ∧ _get_fixture ⟨n, u, b, some ⟨none, none⟩⟩ cp
        = ⟨pathJoin cp FIXTURE_PATH, FIXTURE_IDENTIFIER⟩ := by
  unfold _get_fixture
  simp [hloc, hid]

/-- C5 witness: the override independence at a concrete participant. -/
theorem C5_witness :
    _get_fixture ⟨"c", "u", none, some ⟨some "alt/conftest.py", none⟩⟩ "/ws/c"
        = ⟨pathJoin "/ws/c" "alt/conftest.py", FIXTURE_IDENTIFIER⟩
    ∧ _get_fixture ⟨"c", "u", none, some ⟨none, some "alt_tester"⟩⟩ "/ws/c"
        = ⟨pathJoin "/ws/c" FIXTURE_PATH, "alt_tester"⟩ := by
  have h := C5_fixture_overrides_independent "/ws/c" "c" "u" none
    "alt/conftest.py" "alt_tester" (by decide) (by decide)
  exact ⟨h.1, h.2.1⟩

/-- C6: whenever the clone subprocess exits with a nonzero status (exit
statuses of a process that actually exits are positive; negative
`subprocess.call` values denote death by signal, not an exit status) and
the charm path did not already exist, `_prepare_repo` raises a `SetupError`
whose message names the participant, and no environment build happens: the
trace is exactly one clone attempt. -/
theorem C6_clone_failure_raises_setup_error (o : Oracle)
    (cfg : CharmTestConfig) (i : String) (v : Int) (root : String) (w : World)
    (hex : w.pathExists (pathJoin root cfg.name) = false)
    (hret : 0 < o.cloneRet cfg.name) :
    _prepare_repo o cfg i v root w
      = (Except.error (Err.setupError ("Failed to clone repo for " ++ cfg.name
          ++ "; check the charms.yaml config.")), w, [Event.clone cfg.name])
    ∧ (_prepare_repo o cfg i v root w).2.2.countP Event.isVenvBuild = 0 := by
  have h := prepare_repo_clone_fail o cfg i v root w hex hret
  refine ⟨h, ?_⟩
  rw [h]
  simp [Event.isVenvBuild]

/-- C6 witness: a clone exiting 1 for a concrete charm yields the
SetupError naming it and no build. -/
theorem C6_witness :
    _prepare_repo failingOracle sampleCharmA "ingress" 2 ROOT emptyWorld
      = (Except.error (Err.setupError ("Failed to clone repo for charm-a"
          ++ "; check the charms.yaml config.")), emptyWorld,
          [Event.clone "charm-a"]) := by
  exact (C6_clone_failure_raises_setup_error failingOracle sampleCharmA
    "ingress" 2 ROOT emptyWorld (by decide) (by decide)).1

/-- C10: a present `test_setup` whose `location` (resp. `identifier`) entry
is falsy — the empty string or `None` — is treated as no override: the
default fixture path (resp. default identifier) is resolved instead,
whatever the other entry holds. -/
theorem C10_falsy_override_is_absent (cp n u : String) (b : Option String)
    (other : Option String) :
    (_get_fixture ⟨n, u, b, some ⟨some "", other⟩⟩ cp).path
        = pathJoin cp FIXTURE_PATH
    ∧ (_get_fixture ⟨n, u, b, some ⟨none, other⟩⟩ cp).path
        = pathJoin cp FIXTURE_PATH
    ∧ (_get_fixture ⟨n, u, b, some ⟨other, some ""⟩⟩ cp).id
        = FIXTURE_IDENTIFIER
    ∧ (_get_fixture ⟨n, u, b, some ⟨other, none⟩⟩ cp).id
        = FIXTURE_IDENTIFIER := by
  unfold _get_fixture
  rcases other with _ | s <;> simp

/-! ## Role traversal machinery -/

/-- `_test_charms` never lets an exception escape and records one leaf per
charm, in order. -/
theorem test_charms_ok (o : Oracle) (cfgs : List CharmTestConfig)
    (i : String) (v : Int) (r : String) (w : World) :
    ∃ out, (_test_charms o cfgs i v r w).1 = Except.ok out
      ∧ out.map Prod.fst = cfgs.map CharmTestConfig.name := by
  induction cfgs generalizing w with
  | nil => exact ⟨[], rfl, rfl⟩
  | cons c rest ih =>
      obtain ⟨out, hout, hmap⟩ := ih ((_test_charm o c i v r w).2.1)
      refine ⟨(c.name, charmOutcome o c i (w.pathExists (pathJoin ROOT c.name))
          (w.isFile (_get_fixture c (pathJoin ROOT c.name)).path)) :: out, ?_, ?_⟩
      · exact test_charms_cons_outcomes o c rest i v r w _ out
          (test_charm_eq_outcome o c i v r w) hout
      · simp [hmap]

/-- Evaluation rule for one iteration of the `_test_roles` loop when each
stage returns successfully. -/
theorem test_roles_go_cons_ok (o : Oracle) (role : String)
    (rest : List String) (tpr : List (String × RoleTestSpec)) (i : String)
    (v : Int) (w : World) (spec : RoleTestSpec)
    (res : List (String × Bool)) (w1 : World) (ev1 : List Event)
    (out : List (String × List (String × Bool))) (w2 : World) (ev2 : List Event)
    (hs : dictGet tpr role = Except.ok spec)
    (hstep : (if spec.tests.isEmpty then
          (Except.ok ([] : List (String × Bool)), w, ([] : List Event))
        else if spec.charms.isEmpty then
          (Except.ok ([] : List (String × Bool)), w, ([] : List Event))
        else _test_charms o spec.charms i v role w) = (Except.ok res, w1, ev1))
    (hrest : _test_roles_go o rest tpr i v w1 = (Except.ok out, w2, ev2)) :
    _test_roles_go o (role :: rest) tpr i v w
      = (Except.ok ((role, res) :: out), w2, ev1 ++ ev2) := by
  unfold _test_roles_go
  rw [hs]
  simp only [hstep, hrest]

/-- The result of `_test_roles` always binds exactly the two fixed role
keys, in the order provider then requirer, whatever the key order of the
input mapping; an empty test list or charm list for a role yields the empty
mapping at that role, and if both roles are empty the world is untouched
and no external action happens at all. -/
theorem test_roles_shape (o : Oracle) (tpr : List (String × RoleTestSpec))
    (i : String) (v : Int) (w : World) (sp sr : RoleTestSpec)
    (hp : dictGet tpr "provider" = Except.ok sp)
    (hr : dictGet tpr "requirer" = Except.ok sr) :
    ∃ xp xr,
      (_test_roles o tpr i v w).1
        = Except.ok [("provider", xp), ("requirer", xr)]
      ∧ ((sp.tests = [] ∨ sp.charms = []) → xp = [])
      ∧ ((sr.tests = [] ∨ sr.charms = []) → xr = [])
      ∧ ((sp.tests = [] ∨ sp.charms = []) → (sr.tests = [] ∨ sr.charms = []) →
          _test_roles o tpr i v w
            = (Except.ok [("provider", []), ("requirer", [])], w, [])) := by
  have hreq : ∀ w' : World, ∃ xr w2 ev2,
      _test_roles_go o ["requirer"] tpr i v w'
        = (Except.ok [("requirer", xr)], w2, ev2)
      ∧ ((sr.tests = [] ∨ sr.charms = []) → (xr = [] ∧ w2 = w' ∧ ev2 = [])) := by
    intro w'
    by_cases hrt : sr.tests.isEmpty
    · exact ⟨[], w', [],
        by simpa using
          test_roles_go_cons_ok o "requirer" [] tpr i v w' sr [] w' [] [] w' []
            hr (by simp [hrt]) rfl,
        fun _ => ⟨rfl, rfl, rfl⟩⟩
    · by_cases hrc : sr.charms.isEmpty
      · exact ⟨[], w', [],
          by simpa using
            test_roles_go_cons_ok o "requirer" [] tpr i v w' sr [] w' [] [] w' []
              hr (by simp [hrt, hrc]) rfl,
          fun _ => ⟨rfl, rfl, rfl⟩⟩
      · obtain ⟨outc, houtc, -⟩ := test_charms_ok o sr.charms i v "requirer" w'
        rcases htc : _test_charms o sr.charms i v "requirer" w' with ⟨rc, w2, ev2⟩
        rw [htc] at houtc
        simp at houtc
        subst houtc
        refine ⟨outc, w2, ev2,
          by simpa using
            test_roles_go_cons_ok o "requirer" [] tpr i v w' sr outc w2 ev2 [] w2 []
              hr (by simp [hrt, hrc, htc]) rfl, ?_⟩
        intro hcond
        rcases hcond with h | h <;> simp [h] at hrt hrc
  by_cases hpt : sp.tests.isEmpty
  · obtain ⟨xr, w2, ev2, hgo, hemp⟩ := hreq w
    refine ⟨[], xr, ?_, fun _ => rfl, fun h => (hemp h).1, ?_⟩
    · unfold _test_roles
      rw [test_roles_go_cons_ok o "provider" ["requirer"] tpr i v w sp [] w []
        [("requirer", xr)] w2 ev2 hp (by simp [hpt]) hgo]
    · intro _ hR
      obtain ⟨hxr, hw2, hev2⟩ := hemp hR
      rw [hxr, hw2, hev2] at hgo
      unfold _test_roles
      simpa using test_roles_go_cons_ok o "provider" ["requirer"] tpr i v w sp
        [] w [] [("requirer", [])] w [] hp (by simp [hpt]) hgo
  · by_cases hpc : sp.charms.isEmpty
    · obtain ⟨xr, w2, ev2, hgo, hemp⟩ := hreq w
      refine ⟨[], xr, ?_, fun _ => rfl, fun h => (hemp h).1, ?_⟩
      · unfold _test_roles
        rw [test_roles_go_cons_ok o "provider" ["requirer"] tpr i v w sp [] w []
          [("requirer", xr)] w2 ev2 hp (by simp [hpt, hpc]) hgo]
      · intro _ hR
        obtain ⟨hxr, hw2, hev2⟩ := hemp hR
        rw [hxr, hw2, hev2] at hgo
        unfold _test_roles
        simpa using test_roles_go_cons_ok o "provider" ["requirer"] tpr i v w sp
          [] w [] [("requirer", [])] w [] hp (by simp [hpt, hpc]) hgo
    · obtain ⟨outp, houtp, -⟩ := test_charms_ok o sp.charms i v "provider" w
      rcases htp : _test_charms o sp.charms i v "provider" w with ⟨rp, w1, ev1⟩
      rw [htp] at houtp
      simp at houtp
      subst houtp
      obtain ⟨xr, w2, ev2, hgo, hemp⟩ := hreq w1
      refine ⟨outp, xr, ?_, ?_, fun h => (hemp h).1, ?_⟩
      · unfold _test_roles
        rw [test_roles_go_cons_ok o "provider" ["requirer"] tpr i v w sp outp w1
          ev1 [("requirer", xr)] w2 ev2 hp (by simp [hpt, hpc, htp]) hgo]
      · intro hcond
        rcases hcond with h | h <;> simp [h] at hpt hpc
      · intro hP hR
        rcases hP with h | h <;> simp [h] at hpt hpc

/-- C4: a role whose registered test list or charm list is empty is
recorded in the ResultTree as the empty mapping at a present key — no charm
runs, no `false` appears — and when both roles are empty the whole role
traversal performs no external action and leaves the world untouched. -/
theorem C4_empty_role_yields_empty_mapping (o : Oracle)
    (tpr : List (String × RoleTestSpec)) (i : String) (v : Int) (w : World)
    (role : String) (sp sr spec : RoleTestSpec)
    (hp : dictGet tpr "provider" = Except.ok sp)
    (hr : dictGet tpr "requirer" = Except.ok sr)
    (hrole : role = "provider" ∨ role = "requirer")
    (hspec : dictGet tpr role = Except.ok spec)
    (hempty : spec.tests = [] ∨ spec.charms = []) :
    (∃ res, (_test_roles o tpr i v w).1 = Except.ok res
      ∧ dictGet res role = Except.ok []
      ∧ res.map Prod.fst = ["provider", "requirer"])
    ∧ ((sp.tests = [] ∨ sp.charms = []) → (sr.tests = [] ∨ sr.charms = []) →
        _test_roles o tpr i v w
          = (Except.ok [("provider", []), ("requirer", [])], w, [])) := by
  obtain ⟨xp, xr, hres, hxp, hxr, hboth⟩ :=
    test_roles_shape o tpr i v w sp sr hp hr
  refine ⟨?_, hboth⟩
  rcases hrole with hrole | hrole
  · subst hrole
    rw [hspec] at hp
    have hsp : spec = sp := by
      have := hp
      simp at this
      exact this
    refine ⟨[("provider", xp), ("requirer", xr)], hres, ?_, rfl⟩
    rw [hxp (hsp ▸ hempty)]
    rfl
  · subst hrole
    rw [hspec] at hr
    have hsr : spec = sr := by
      have := hr
      simp at this
      exact this
    refine ⟨[("provider", xp), ("requirer", xr)], hres, ?_, rfl⟩
    rw [hxr (hsr ▸ hempty)]
    rfl

/-- C4 witness: a registry whose requirer role has tests but no charms, and
whose provider role has charms and tests; the requirer key maps to `{}`. -/
theorem C4_witness :
    (_test_roles sampleOracle
      [("requirer", ⟨["t1"], []⟩), ("provider", ⟨["t1"], [sampleCharmB]⟩)]
      "ingress" 2 sampleWorld).1
      = Except.ok [("provider", [("charm-b", true)]), ("requirer", [])] := by
  obtain ⟨⟨res, hres, hget, hkeys⟩, -⟩ :=
    C4_empty_role_yields_empty_mapping sampleOracle
      [("requirer", ⟨["t1"], []⟩), ("provider", ⟨["t1"], [sampleCharmB]⟩)]
      "ingress" 2 sampleWorld "requirer" ⟨["t1"], [sampleCharmB]⟩ ⟨["t1"], []⟩
      ⟨["t1"], []⟩ rfl rfl (Or.inr rfl) rfl (Or.inr rfl)
  rfl

/-- C8: the roles in the emitted ResultTree appear in the fixed order
provider then requirer, independent of the insertion order of the role
keys in the registry mapping. -/
theorem C8_roles_fixed_order (o : Oracle) (tpr : List (String × RoleTestSpec))
    (i : String) (v : Int) (w : World) (sp sr : RoleTestSpec)
    (hp : dictGet tpr "provider" = Except.ok sp)
    (hr : dictGet tpr "requirer" = Except.ok sr) :
    ∃ res, (_test_roles o tpr i v w).1 = Except.ok res
      ∧ res.map Prod.fst = ["provider", "requirer"] := by
  obtain ⟨xp, xr, hres, -, -, -⟩ := test_roles_shape o tpr i v w sp sr hp hr
  exact ⟨[("provider", xp), ("requirer", xr)], hres, rfl⟩

/-- C8 witness: a registry listing requirer before provider still emits
provider first. -/
theorem C8_witness :
    ∃ res, (_test_roles sampleOracle
        [("requirer", ⟨[], []⟩), ("provider", ⟨[], []⟩)] "ingress" 2
        emptyWorld).1 = Except.ok res
      ∧ res.map Prod.fst = ["provider", "requirer"] := by
  exact C8_roles_fixed_order sampleOracle
    [("requirer", ⟨[], []⟩), ("provider", ⟨[], []⟩)] "ingress" 2 emptyWorld
    ⟨[], []⟩ ⟨[], []⟩ rfl rfl

/-- C9 (amended): a version label whose substring after the first
character is not accepted by Python's `int()` — an optionally signed,
optionally whitespace-surrounded run of Unicode decimal digits with single
underscores allowed between digits; so `version2` or `v2.1` abort, while
`v2_1` parses as 21 and proceeds — makes `_test_interface_version` raise
an uncaught ValueError from `int(version[1:])`: the error is not converted
to a `false` leaf, no unit of work in that call runs (no events, world
untouched), and in `run_interface_tests` it aborts the whole run right
after the workspace reset. -/
theorem C9_bad_version_label_aborts (o : Oracle) (version : String)
    (tpr : List (String × RoleTestSpec))
    (rest : List (String × List (String × RoleTestSpec)))
    (i : String) (w : World) (m : String)
    (hbad : pyIntOfString (version.drop 1) = Except.error (Err.valueError m)) :
    _test_interface_version o ((version, tpr) :: rest) i w
      = (Except.error (Err.valueError m), w, [])
    ∧ run_interface_tests o [(i, (version, tpr) :: rest)] w
      = (Except.error (Err.valueError m), (_clean ROOT w).1, (_clean ROOT w).2) := by
  have h1 : ∀ w' : World, _test_interface_version o ((version, tpr) :: rest) i w'
      = (Except.error (Err.valueError m), w', []) := by
    intro w'
    unfold _test_interface_version
    rw [hbad]
  refine ⟨h1 w, ?_⟩
  unfold run_interface_tests run_interface_tests_go
  rcases hc : _clean ROOT w with ⟨w0, ev0⟩
  simp only [h1]
  simp [hc]

/-- C9 witness: the label `v2.1` aborts the version traversal with the
Python ValueError message. -/
theorem C9_witness :
    _test_interface_version sampleOracle [("v2.1", [])] "ingress" emptyWorld
      = (Except.error
          (Err.valueError "invalid literal for int() with base 10: '2.1'"),
         emptyWorld, []) := by
  exact (C9_bad_version_label_aborts sampleOracle "v2.1" [] [] "ingress"
    emptyWorld "invalid literal for int() with base 10: '2.1'" rfl).1

/-- A registry entry with both roles present and empty. -/
def emptyRolesRegistry : List (String × RoleTestSpec) :=
  [("provider", ⟨[], []⟩), ("requirer", ⟨[], []⟩)]

/-- C9 counterexample: the claim as frozen quantifies over every label
whose tail is not "the decimal representation of an integer" and asserts
the run aborts there; but Python's `int()` accepts more than plain decimal
representations (PEP 515 underscores, Unicode digits), so at the label
`v2_1` — whose tail `2_1` is no decimal representation of an integer —
`int` returns 21 and `_test_interface_version` completes normally instead
of raising. -/
theorem C9_counterexample :
    pyIntOfString ("v2_1".drop 1) = Except.ok 21
    ∧ _test_interface_version sampleOracle [("v2_1", emptyRolesRegistry)]
        "ingress" emptyWorld
      = (Except.ok [("v2_1", [("provider", []), ("requirer", [])])],
         emptyWorld, []) := by
  exact ⟨rfl, rfl⟩

/-! ## Workspace reset -/

def Event.isCleanCall : Event → Bool
  | Event.cleanCall _ => true
  | _ => false

theorem prepare_repo_no_cleanup (o : Oracle) (cfg : CharmTestConfig)
    (i : String) (v : Int) (root : String) (w : World) :
    (_prepare_repo o cfg i v root w).2.2.countP Event.isCleanup = 0 := by
  cases hex : w.pathExists (pathJoin root cfg.name) with
  | true =>
      rw [prepare_repo_exists o cfg i v root w hex]
      cases hfix : w.isFile (_get_fixture cfg (pathJoin root cfg.name)).path with
      | false =>
          rw [prepare_fixture_miss cfg i v _ w hfix]
          simp
      | true =>
          rw [prepare_fixture_hit cfg i v _ w hfix]
          simp [Event.isCleanup]
  | false =>
      by_cases hclone : 0 < o.cloneRet cfg.name
      · rw [prepare_repo_clone_fail o cfg i v root w hex hclone]
        simp [Event.isCleanup]
      · cases hvenv : venvOK o (pathJoin root cfg.name) with
        | false =>
            rw [prepare_repo_venv_fail o cfg i v root w hex hclone hvenv]
            simp [Event.isCleanup]
        | true =>
            cases hfix : w.isFile (_get_fixture cfg (pathJoin root cfg.name)).path with
            | false =>
                rw [prepare_repo_fresh_miss o cfg i v root w hex hclone hvenv hfix]
                simp [Event.isCleanup]
            | true =>
                rw [prepare_repo_fresh_hit o cfg i v root w hex hclone hvenv hfix]
                simp [Event.isCleanup]

theorem test_charm_no_cleanup (o : Oracle) (cfg : CharmTestConfig)
    (i : String) (v : Int) (r : String) (w : World) :
    (_test_charm o cfg i v r w).2.2.countP Event.isCleanup = 0 := by
  have h0 := prepare_repo_no_cleanup o cfg i v ROOT w
  unfold _test_charm
  rcases hp : _prepare_repo o cfg i v ROOT w with ⟨r1, w1, ev1⟩
  rw [hp] at h0
  simp only at h0
  cases r1 with
  | error e => cases e <;> simpa using h0
  | ok p =>
      rcases p with ⟨cp, tp⟩
      unfold _run_test_with_pytest
      cases hpy : o.pytestOK cp tp <;>
        simp_all [List.countP_append, Event.isCleanup]

theorem test_charms_no_cleanup (o : Oracle) (cfgs : List CharmTestConfig)
    (i : String) (v : Int) (r : String) (w : World) :
    (_test_charms o cfgs i v r w).2.2.countP Event.isCleanup = 0 := by
  induction cfgs generalizing w with
  | nil => simp [_test_charms]
  | cons c rest ih =>
      have h0 := test_charm_no_cleanup o c i v r w
      unfold _test_charms
      rcases h1 : _test_charm o c i v r w with ⟨r1, w1, ev1⟩
      rw [h1] at h0
      simp only at h0
      cases r1 with
      | error e => simpa using h0
      | ok b =>
          have h2 := ih w1
          rcases hr : _test_charms o rest i v r w1 with ⟨r2, w2, ev2⟩
          rw [hr] at h2
          simp only at h2
          cases r2 <;> simp_all [List.countP_append]

theorem test_roles_go_no_cleanup (o : Oracle) (roles : List String)
    (tpr : List (String × RoleTestSpec)) (i : String) (v : Int) (w : World) :
    (_test_roles_go o roles tpr i v w).2.2.countP Event.isCleanup = 0 := by
  induction roles generalizing w with
  | nil => simp [_test_roles_go]
  | cons role rest ih =>
      unfold _test_roles_go
      cases hd : dictGet tpr role with
      | error e => simp
      | ok spec =>
          have hstep0 : ((if spec.tests.isEmpty then
              (Except.ok ([] : List (String × Bool)), w, ([] : List Event))
            else if spec.charms.isEmpty then
              (Except.ok ([] : List (String × Bool)), w, ([] : List Event))
            else _test_charms o spec.charms i v role w)).2.2.countP
              Event.isCleanup = 0 := by
            by_cases hpt : spec.tests.isEmpty
            · simp [hpt]
            · by_cases hpc : spec.charms.isEmpty
              · simp [hpt, hpc]
              · simp [hpt, hpc, test_charms_no_cleanup]
          rcases hst : (if spec.tests.isEmpty then
              (Except.ok ([] : List (String × Bool)), w, ([] : List Event))
            else if spec.charms.isEmpty then
              (Except.ok ([] : List (String × Bool)), w, ([] : List Event))
            else _test_charms o spec.charms i v role w) with ⟨rs, w1, ev1⟩
          rw [hst] at hstep0
          simp only at hstep0
          simp only [hst]
          cases rs with
          | error e => simpa using hstep0
          | ok res =>
              have h2 := ih w1
              rcases hrec : _test_roles_go o rest tpr i v w1 with ⟨rr, w2, ev2⟩
              rw [hrec] at h2
              simp only at h2
              cases rr <;> simp_all [List.countP_append]

theorem test_interface_version_no_cleanup (o : Oracle)
    (tpv : List (String × List (String × RoleTestSpec))) (i : String)
    (w : World) :
    (_test_interface_version o tpv i w).2.2.countP Event.isCleanup = 0 := by
  induction tpv generalizing w with
  | nil => simp [_test_interface_version]
  | cons hd rest ih =>
      rcases hd with ⟨version, tpr⟩
      unfold _test_interface_version
      cases hpi : pyIntOfString (version.drop 1) with
      | error e => simp
      | ok vi =>
          have h1 : (_test_roles o tpr i vi w).2.2.countP Event.isCleanup = 0 := by
            unfold _test_roles
            exact test_roles_go_no_cleanup o ["provider", "requirer"] tpr i vi w
          rcases hr : _test_roles o tpr i vi w with ⟨rr, w1, ev1⟩
          rw [hr] at h1
          simp only at h1
          cases rr with
          | error e => simpa [hr] using h1
          | ok res =>
              have h2 := ih w1
              rcases hrec : _test_interface_version o rest i w1 with ⟨r2, w2, ev2⟩
              rw [hrec] at h2
              simp only at h2
              cases r2 <;> simp_all [List.countP_append]

theorem run_go_no_cleanup (o : Oracle)
    (collected : List (String × List (String × List (String × RoleTestSpec))))
    (w : World) :
    (run_interface_tests_go o collected w).2.2.countP Event.isCleanup = 0 := by
  induction collected generalizing w with
  | nil => simp [run_interface_tests_go]
  | cons hd rest ih =>
      rcases hd with ⟨i, tpv⟩
      unfold run_interface_tests_go
      have h1 := test_interface_version_no_cleanup o tpv i w
      rcases hr : _test_interface_version o tpv i w with ⟨rr, w1, ev1⟩
      rw [hr] at h1
      simp only at h1
      cases rr with
      | error e => simpa using h1
      | ok res =>
          have h2 := ih w1
          rcases hrec : run_interface_tests_go o rest w1 with ⟨r2, w2, ev2⟩
          rw [hrec] at h2
          simp only at h2
          cases r2 <;> simp_all [List.countP_append]

theorem contains_filter_eq_false (l : List String) (f : String → Bool)
    (p : String) (hf : f p = false) : (l.filter f).contains p = false := by
  have hm : p ∉ l.filter f := by
    intro hm
    rw [List.mem_filter, hf] at hm
    exact Bool.false_ne_true hm.2
  simpa using hm

/-- Any event the matrix traversal itself emits is a clean-up event of
neither kind, so a clean-call marker implies a clean-up classification. -/
theorem isCleanCall_imp_isCleanup (e : Event) (h : Event.isCleanCall e = true) :
    Event.isCleanup e = true := by
  cases e <;> simp_all [Event.isCleanCall, Event.isCleanup]

/-- C7: the workspace reset runs exactly once per orchestration run, before
any provisioning or test execution: `_clean` is a no-op on an absent root
(conjunct 1), removes everything under an existing root (conjunct 2), and
is idempotent (conjunct 3); `run_interface_tests` emits the reset's events
first (conjunct 4), the rest of the trace contains no clean-up of any kind
(conjunct 5), the whole trace holds exactly one reset invocation
(conjunct 6), and that invocation is the very first event (conjunct 7). -/
theorem C7_workspace_reset_exactly_once (root : String) (w : World)
    (o : Oracle)
    (collected : List (String × List (String × List (String × RoleTestSpec)))) :
    (w.isDir root = false → _clean root w = (w, [Event.cleanCall root]))
    ∧ (w.isDir root = true → ∀ p, isUnder root p = true →
        (_clean root w).1.dirs.contains p = false
        ∧ (_clean root w).1.files.contains p = false)
    ∧ _clean root ((_clean root w).1) = ((_clean root w).1, [Event.cleanCall root])
    ∧ (run_interface_tests o collected w).2.2
        = (_clean ROOT w).2
            ++ (run_interface_tests_go o collected (_clean ROOT w).1).2.2
    ∧ (run_interface_tests_go o collected (_clean ROOT w).1).2.2.countP
        Event.isCleanup = 0
    ∧ (run_interface_tests o collected w).2.2.countP Event.isCleanCall = 1
    ∧ (run_interface_tests o collected w).2.2.head? = some (Event.cleanCall ROOT) := by
  have hgen : ∀ w' : World, w'.isDir root = false →
      _clean root w' = (w', [Event.cleanCall root]) := by
    intro w' h
    simp [_clean, h]
  have h4 : (run_interface_tests o collected w).2.2
      = (_clean ROOT w).2
          ++ (run_interface_tests_go o collected (_clean ROOT w).1).2.2 := by
    unfold run_interface_tests
    rcases hc : _clean ROOT w with ⟨w0, ev0⟩
    rcases hg : run_interface_tests_go o collected w0 with ⟨r1, w1, ev1⟩
    simp [hc, hg]
  have hev0 : (_clean ROOT w).2.countP Event.isCleanCall = 1 := by
    unfold _clean
    cases hdir : w.isDir ROOT <;> simp [Event.isCleanCall, Event.isCleanup]
  refine ⟨hgen w, ?_, ?_, h4, run_go_no_cleanup o collected (_clean ROOT w).1,
    ?_, ?_⟩
  · intro hdir p hp
    have hf : (fun q => !(isUnder root q)) p = false := by simp [hp]
    constructor
    · simp only [_clean, hdir, if_true]
      exact contains_filter_eq_false w.dirs _ p hf
    · simp only [_clean, hdir, if_true]
      exact contains_filter_eq_false w.files _ p hf
  · cases hdir : w.isDir root with
    | false =>
        rw [hgen w hdir]
        exact hgen w hdir
    | true =>
        have hno : ((_clean root w).1).isDir root = false := by
          simp only [_clean, hdir, if_true]
          exact contains_filter_eq_false w.dirs _ root (by simp [isUnder])
        exact hgen _ hno
  · rw [h4, List.countP_append, hev0]
    have hz := run_go_no_cleanup o collected (_clean ROOT w).1
    rw [List.countP_eq_zero] at hz
    have hz2 : (run_interface_tests_go o collected
        (_clean ROOT w).1).2.2.countP Event.isCleanCall = 0 := by
      rw [List.countP_eq_zero]
      intro a ha
      intro hcall
      exact absurd (isCleanCall_imp_isCleanup a hcall) (hz a ha)
    rw [hz2]
  · rw [h4]
    unfold _clean
    cases hdir : w.isDir ROOT <;> simp

/-- A world in which the default workspace root itself exists, with one
charm directory and one fixture file under it. -/
def sampleWorkspaceWorld : World :=
  { cwd := "/home/runner", dirs := [ROOT, pathJoin ROOT "charm-b"],
    files := [pathJoin (pathJoin ROOT "charm-b") FIXTURE_PATH] }

/-- C7 witness: the reset at concrete worlds — no-op on the empty world,
recursive deletion of a populated workspace, and a run whose trace opens
with its single reset. -/
theorem C7_witness :
    _clean ROOT emptyWorld = (emptyWorld, [Event.cleanCall ROOT])
    ∧ (_clean ROOT sampleWorkspaceWorld).1.dirs.contains
        (pathJoin ROOT "charm-b") = false
    ∧ (run_interface_tests sampleOracle [] emptyWorld).2.2.countP
        Event.isCleanCall = 1
    ∧ (run_interface_tests sampleOracle [] emptyWorld).2.2.head?
        = some (Event.cleanCall ROOT) := by
  have h1 := C7_workspace_reset_exactly_once ROOT emptyWorld sampleOracle []
  have h2 := C7_workspace_reset_exactly_once ROOT sampleWorkspaceWorld
    sampleOracle []
  exact ⟨h1.1 (by decide),
    (h2.2.1 (by decide) (pathJoin ROOT "charm-b") (by decide)).1,
    h1.2.2.2.2.2.1, h1.2.2.2.2.2.2⟩

end RunMatrix
